import Mathlib

/- Shallow embedding of the reliability substrate of govuk_crawler_worker:
   the broker connection (src/queue/queue_connection.go), the HTML link
   extractor (src/crawler/extract_urls.go), and the dedup store client
   (TTLHashSet), whose implementation is modelled from the specification,
   since only its test suite is present among the sources. -/

/- ===================================================================
   Broker Connection: src/queue/queue_connection.go
   =================================================================== -/

/-- Outcome of one run of publisherConfirm.  ackedPublish and nackedPublish
record the Channel.Ack / Channel.Nack call issued to the broker together
with its multiple and requeue flags; fatalExit records a log.Fatal call,
which terminates the whole process (onAck tells which branch fataled);
blockedWait records that the select blocks because no confirm has arrived
on either channel. -/
inductive ConfirmAction where
  | ackedPublish (tag : Nat) (multiple : Bool)
  | nackedPublish (tag : Nat) (multiple : Bool) (requeue : Bool)
  | fatalExit (onAck : Bool) (tag : Nat) (err : String)
  | blockedWait
deriving DecidableEq

/-- State of a QueueConnection: the buffered contents of the ack and nack
channels registered by NotifyConfirm in NewQueueConnection (head of each
list is the next tag that a receive would yield).  The underlying amqp
Connection and Channel are external collaborators and appear only through
the error results passed to each operation. -/
structure QueueConnection where
  ack : List Nat
  nack : List Nat
deriving DecidableEq

/-- publisherConfirm from queue_connection.go: select over the shared ack
and nack channels.  It receives whichever confirm tag is at the head of a
channel (pickAck resolves the select when both channels are ready) and
issues Channel.Ack(tag, false) resp. Channel.Nack(tag, false, true); the
results of those external calls are given by ackErr and nackErr, and an
error from either leads to log.Fatal, i.e. ConfirmAction.fatalExit.  Note
that the function receives no delivery tag of its own: it has no way to
know which publish the consumed confirm belongs to. -/
def publisherConfirm (c : QueueConnection) (pickAck : Bool)
    (ackErr : Nat → Option String) (nackErr : Nat → Option String) :
    ConfirmAction × QueueConnection :=
  match c.ack, c.nack with
  | [], [] => (ConfirmAction.blockedWait, c)
  | t :: ts, [] =>
      (match ackErr t with
       | none => ConfirmAction.ackedPublish t false
       | some e => ConfirmAction.fatalExit true t e,
       { c with ack := ts })
  | [], t :: ts =>
      (match nackErr t with
       | none => ConfirmAction.nackedPublish t false true
       | some e => ConfirmAction.fatalExit false t e,
       { c with nack := ts })
  | t :: ts, u :: us =>
      if pickAck then
        (match ackErr t with
         | none => ConfirmAction.ackedPublish t false
         | some e => ConfirmAction.fatalExit true t e,
         { c with ack := ts })
      else
        (match nackErr u with
         | none => ConfirmAction.nackedPublish u false true
         | some e => ConfirmAction.fatalExit false u e,
         { c with nack := us })

/-- Publish from queue_connection.go: calls Channel.Publish (an external
call whose result is publishErr; the message is sent persistent, default
priority, not mandatory, not immediate) and defers publisherConfirm, which
runs after the return value is computed.  The first component of the
result is the value Publish returns to its caller; the second records what
the deferred publisherConfirm did.  The returned error is exactly the
Channel.Publish error: the confirm outcome cannot influence it. -/
def QueueConnection.Publish (c : QueueConnection)
    (exchangeName routingKey contentType body : String)
    (publishErr : Option String) (pickAck : Bool)
    (ackErr nackErr : Nat → Option String) :
    (Option String × ConfirmAction) × QueueConnection :=
  ((publishErr, (publisherConfirm c pickAck ackErr nackErr).1),
   (publisherConfirm c pickAck ackErr nackErr).2)

/-- The two underlying close calls that QueueConnection.Close may issue. -/
inductive CloseStep where
  | closeChannel
  | closeConnection
deriving DecidableEq

/-- Close from queue_connection.go: chanErr and connErr are the results of
the underlying Channel.Close and Connection.Close external calls.  The
first component is the error Close returns; the second is the trace of
which underlying close calls were issued, in order.  Channel.Close is
always called first; on a channel-close error Close returns at once and
Connection.Close is never reached. -/
def QueueConnection.Close (chanErr connErr : Option String) :
    Option String × List CloseStep :=
  match chanErr with
  | some e => (some e, [CloseStep.closeChannel])
  | none => (connErr, [CloseStep.closeChannel, CloseStep.closeConnection])

/- ===================================================================
   Link extractor: src/crawler/extract_urls.go
   =================================================================== -/

/-- An HTML element as the goquery wrapper exposes it to ExtractURLs: a
tag name and its attribute list.  Attr returns the value of the first
binding of the named attribute, if present. -/
structure HtmlElement where
  tag : String
  attrs : List (String × String)
deriving DecidableEq

def HtmlElement.Attr (e : HtmlElement) (name : String) : Option String :=
  (e.attrs.find? (fun p => p.1 == name)).map (fun p => p.2)

/-- Result of the extraction loop: either the collected URL list, or a
log.Fatal on the first attribute value rejected by url.Parse, which
terminates the whole process (the rejected value is recorded). -/
inductive ExtractOutcome where
  | ok (urls : List String)
  | fatal (badURL : String)
deriving DecidableEq

/-- The Each loop body of findByElementAttribute, run over the elements
matched by the selector, in document order.  For each element it reads
(href, exists) from Attr; url.Parse is modelled by the external function
parseURLHost, which returns the host component of the parsed URL or the
parse error; note the source parses href even when the attribute is
absent (href is then the empty string), and on a parse error it calls
log.Fatal.  The value is kept iff the attribute exists and the parsed
host equals the wanted host. -/
def collectAttrs (parseURLHost : String → Except String String)
    (host attrName : String) : List HtmlElement → ExtractOutcome
  | [] => ExtractOutcome.ok []
  | e :: es =>
      match HtmlElement.Attr e attrName with
      | none =>
          match parseURLHost "" with
          | Except.error _ => ExtractOutcome.fatal ""
          | Except.ok _ =>
              match collectAttrs parseURLHost host attrName es with
              | ExtractOutcome.fatal b => ExtractOutcome.fatal b
              | ExtractOutcome.ok rest => ExtractOutcome.ok rest
      | some v =>
          match parseURLHost v with
          | Except.error _ => ExtractOutcome.fatal v
          | Except.ok h =>
              match collectAttrs parseURLHost host attrName es with
              | ExtractOutcome.fatal b => ExtractOutcome.fatal b
              | ExtractOutcome.ok rest =>
                  ExtractOutcome.ok (if h == host then v :: rest else rest)

/-- findByElementAttribute from extract_urls.go: document.Find(element)
yields the elements with the given tag in document order; the Each body
is collectAttrs. -/
def findByElementAttribute (parseURLHost : String → Except String String)
    (document : List HtmlElement) (host : String)
    (element : String) (attrName : String) : ExtractOutcome :=
  collectAttrs parseURLHost host attrName
    (document.filter (fun e => e.tag == element))

/-- ExtractURLs from extract_urls.go.  docResult is the outcome of
goquery.NewDocumentFromReader on the body: on a document parse error the
function returns the still-empty (non-nil) urls slice together with that
error; otherwise it appends, in this order, the matches for a[href],
img[src], link[href] and script[src], and returns them with a nil error.
A url.Parse failure inside any group aborts the process (fatal). -/
def ExtractURLs (parseURLHost : String → Except String String)
    (docResult : Except String (List HtmlElement)) (host : String) :
    ExtractOutcome × Option String :=
  match docResult with
  | Except.error msg => (ExtractOutcome.ok [], some msg)
  | Except.ok document =>
      (( [ ( "a", "href" ), ( "img", "src" ), ( "link", "href" ),
           ( "script", "src" ) ] : List (String × String)).foldl
        (fun acc p =>
          match acc with
          | ExtractOutcome.fatal b => ExtractOutcome.fatal b
          | ExtractOutcome.ok urls =>
              match findByElementAttribute parseURLHost document host p.1 p.2 with
              | ExtractOutcome.fatal b => ExtractOutcome.fatal b
              | ExtractOutcome.ok more => ExtractOutcome.ok (urls ++ more))
        (ExtractOutcome.ok []), none)

/-- The per-group selection written directly from the claim: the attribute
values of the elements with the given tag whose parsed URL host equals
host (values that fail to parse contribute nothing).  Used to compare
ExtractURLs against the claimed result. -/
def matchingAttrValues (parseURLHost : String → Except String String)
    (document : List HtmlElement) (host : String)
    (element : String) (attrName : String) : List String :=
  (document.filter (fun e => e.tag == element)).filterMap (fun e =>
    match HtmlElement.Attr e attrName with
    | none => none
    | some v =>
        match parseURLHost v with
        | Except.error _ => none
        | Except.ok h => if h == host then some v else none)

/-- The full claimed result of ExtractURLs: the a[href], img[src],
link[href] and script[src] matches, grouped in that element order. -/
def extractURLsSpec (parseURLHost : String → Except String String)
    (document : List HtmlElement) (host : String) : List String :=
  matchingAttrValues parseURLHost document host "a" "href"
    ++ matchingAttrValues parseURLHost document host "img" "src"
    ++ matchingAttrValues parseURLHost document host "link" "href"
    ++ matchingAttrValues parseURLHost document host "script" "src"

/-- A URL parser that rejects the single value "%zz", as net/url.Parse
rejects an invalid percent escape, and maps every other string to an
empty host. -/
def badParse : String → Except String String := fun s =>
  if s == "%zz" then Except.error "invalid URL escape" else Except.ok ""

/-- A URL parser that accepts every string, with an empty host. -/
def totalParse : String → Except String String := fun _ => Except.ok ""

/- ===================================================================
   Dedup Store Client (TTLHashSet).  Its implementation is not among the
   sources (only its test suite, src/unnamed/part_000, is), so the
   component is modelled from the specification, sections 4.2, 5 and 7.
   =================================================================== -/

/-- Modelled from the spec: the connection state of the Dedup Store
Client, one of Connected, Reconnecting, Closed (Disconnected exists only
before construction succeeds and is unreachable on a built client).
Reconnecting carries the time at which the transport failure was
observed, which is when the reconnect supervisor starts polling. -/
inductive ConnState where
  | connected
  | reconnecting (brokeAt : Nat)
  | closed
deriving DecidableEq

/-- Modelled from the spec: the error taxonomy of section 7.
connectionError is the initial dial failure, transportError a
mid-operation socket failure (with the transport message), and
reconnectingError the distinct class returned while the supervisor has
not yet restored connectivity.  protocolError is a malformed response. -/
inductive StoreError where
  | connectionError
  | transportError (msg : String)
  | reconnectingError
  | protocolError (msg : String)
deriving DecidableEq

/-- The external world as one dedup store call observes it: the current
time in milliseconds, the earliest time at which a re-dial to the backing
service can succeed (upAt), and whether the established connection breaks
in the middle of this call (breaks). -/
structure NetEnv where
  now : Nat
  upAt : Nat
  breaks : Bool
deriving DecidableEq

/-- Modelled from the spec: the Dedup Store Client state.  ns is the
configured namespace used to build composite keys, address the store
network address, pollInterval the reconnect polling interval and keyTTL
the expiry given to added keys (both configurable, per the numeric
calibration note).  store is the content of the backing TTL key-value
service: each composite key maps to its absolute expiry time, or none
when no expiry is set. -/
structure TTLHashSet where
  ns : String
  address : String
  pollInterval : Nat
  keyTTL : Nat
  state : ConnState
  store : List (String × Option Nat)
deriving DecidableEq

/-- Modelled from the spec: a dedup key is a composite of the configured
namespace and the caller-supplied string. -/
def compositeKey (ns key : String) : String := ns ++ ":" ++ key

/-- A composite key is present iff it is stored and unexpired (an entry
without expiry never expires). -/
def storedUnexpired (store : List (String × Option Nat)) (k : String)
    (now : Nat) : Bool :=
  match store.find? (fun p => p.1 == k) with
  | none => false
  | some (_, none) => true
  | some (_, some exp) => decide (now < exp)

/-- Modelled from the spec: the reconnect supervisor re-dials at the fixed
polling interval, at times brokeAt + interval, brokeAt + 2 * interval,
and so on, until a dial succeeds; a dial succeeds iff it happens at or
after upAt.  recoveryTime is the time of the first successful re-dial,
at which the state flips back to Connected. -/
def recoveryTime (brokeAt upAt interval : Nat) : Nat :=
  brokeAt + interval * max 1 ((upAt - brokeAt + interval - 1) / interval)

/-- Modelled from the spec: Exists(key) is true iff the key is currently
stored and unexpired.  A transport failure mid-call returns (false, the
transport error) and triggers the reconnect supervisor; while the
supervisor has not yet restored connectivity the call fails fast with
the distinct reconnecting error; once the supervisor has reconnected the
call resumes succeeding with no other caller-visible signal. -/
def TTLHashSet.Exists (h : TTLHashSet) (key : String) (env : NetEnv) :
    (Bool × Option StoreError) × TTLHashSet :=
  match h.state with
  | ConnState.closed => ((false, some StoreError.connectionError), h)
  | ConnState.connected =>
      if env.breaks then
        ((false, some (StoreError.transportError "EOF")),
         { h with state := ConnState.reconnecting env.now })
      else
        ((storedUnexpired h.store (compositeKey h.ns key) env.now, none), h)
  | ConnState.reconnecting brokeAt =>
      if recoveryTime brokeAt env.upAt h.pollInterval ≤ env.now then
        ((storedUnexpired h.store (compositeKey h.ns key) env.now, none),
         { h with state := ConnState.connected })
      else
        ((false, some StoreError.reconnectingError), h)

/-- Modelled from the spec: Add(key) atomically inserts the composite key
with the configured TTL only if absent (SET key value NX EX ttl), giving
added = true on a fresh insert and false when already present, which is
not an error; an expired entry counts as absent and is replaced.  The
transport-failure and reconnecting behaviour is as for Exists. -/
def TTLHashSet.Add (h : TTLHashSet) (key : String) (env : NetEnv) :
    (Bool × Option StoreError) × TTLHashSet :=
  match h.state with
  | ConnState.closed => ((false, some StoreError.connectionError), h)
  | ConnState.connected =>
      if env.breaks then
        ((false, some (StoreError.transportError "EOF")),
         { h with state := ConnState.reconnecting env.now })
      else
        if storedUnexpired h.store (compositeKey h.ns key) env.now then
          ((false, none), h)
        else
          ((true, none),
           { h with store :=
              (compositeKey h.ns key, some (env.now + h.keyTTL)) ::
                h.store.filter (fun p => !(p.1 == compositeKey h.ns key)) })
  | ConnState.reconnecting brokeAt =>
      if recoveryTime brokeAt env.upAt h.pollInterval ≤ env.now then
        if storedUnexpired h.store (compositeKey h.ns key) env.now then
          ((false, none), { h with state := ConnState.connected })
        else
          ((true, none),
           { h with
              state := ConnState.connected,
              store :=
              (compositeKey h.ns key, some (env.now + h.keyTTL)) ::
                h.store.filter (fun p => !(p.1 == compositeKey h.ns key)) })
      else
        ((false, some StoreError.reconnectingError), h)

/-- Modelled from the spec: TTL(key) returns a signed duration with no
error when connected; a negative value encodes absent (-2, which also
covers an expired entry) or no expiry set (-1), and a positive value is
the remaining lifetime.  A transport failure returns an error instead,
together with a negative/false result as in Scenario A of the spec (the
numeric component is then -1, negative and meaningless), and the
reconnecting behaviour is as for Exists. -/
def TTLHashSet.TTL (h : TTLHashSet) (key : String) (env : NetEnv) :
    (Int × Option StoreError) × TTLHashSet :=
  match h.state with
  | ConnState.closed => ((0, some StoreError.connectionError), h)
  | ConnState.connected =>
      if env.breaks then
        ((-1, some (StoreError.transportError "EOF")),
         { h with state := ConnState.reconnecting env.now })
      else
        (match h.store.find? (fun p => p.1 == compositeKey h.ns key) with
         | none => ((-2, none), h)
         | some (_, none) => ((-1, none), h)
         | some (_, some exp) =>
             if env.now < exp then (((exp : Int) - (env.now : Int), none), h)
             else ((-2, none), h))
  | ConnState.reconnecting brokeAt =>
      if recoveryTime brokeAt env.upAt h.pollInterval ≤ env.now then
        (match h.store.find? (fun p => p.1 == compositeKey h.ns key) with
         | none => ((-2, none), { h with state := ConnState.connected })
         | some (_, none) => ((-1, none), { h with state := ConnState.connected })
         | some (_, some exp) =>
             if env.now < exp then
               (((exp : Int) - (env.now : Int), none),
                { h with state := ConnState.connected })
             else ((-2, none), { h with state := ConnState.connected }))
      else
        ((0, some StoreError.reconnectingError), h)

/-- Modelled from the spec: Ping() is a liveness probe whose expected
reply is the fixed literal PONG; failure behaviour as for Exists. -/
def TTLHashSet.Ping (h : TTLHashSet) (env : NetEnv) :
    (String × Option StoreError) × TTLHashSet :=
  match h.state with
  | ConnState.closed => (( "", some StoreError.connectionError), h)
  | ConnState.connected =>
      if env.breaks then
        (( "", some (StoreError.transportError "EOF")),
         { h with state := ConnState.reconnecting env.now })
      else
        (( "PONG", none), h)
  | ConnState.reconnecting brokeAt =>
      if recoveryTime brokeAt env.upAt h.pollInterval ≤ env.now then
        (( "PONG", none), { h with state := ConnState.connected })
      else
        (( "", some StoreError.reconnectingError), h)

/-- Modelled from the spec: Close() releases the connection and stops the
reconnect supervisor deterministically; Closed is terminal. -/
def TTLHashSet.Close (h : TTLHashSet) : Option StoreError × TTLHashSet :=
  (none, { h with state := ConnState.closed })

/-- Modelled from the spec: NewTTLHashSet attempts one eager connection
(the single dial attempt is external and its success is dialSucceeds);
if that one attempt fails the constructor returns a ConnectionError at
once, without retrying, and no usable client.  On success the client
starts Connected. -/
def NewTTLHashSet (dialSucceeds : Bool) (ns address : String)
    (interval ttl : Nat) : Except StoreError TTLHashSet :=
  if dialSucceeds then
    Except.ok
      { ns := ns, address := address, pollInterval := interval,
        keyTTL := ttl, state := ConnState.connected, store := [] }
  else
    Except.error StoreError.connectionError

/-- A caller retrying Exists once per polling interval, at times
base, base + interval, base + 2 * interval, ...: the number of attempts
among the first n that fail.  Failed attempts leave the client state
unchanged, so each counted call observes the same state h. -/
def failedAttempts (h : TTLHashSet) (key : String)
    (upAt interval n base : Nat) : Nat :=
  ((List.range n).filter (fun i =>
    (TTLHashSet.Exists h key
      { now := base + i * interval, upAt := upAt, breaks := false }).1.2.isSome)).length

/-- External ack and nack calls that always succeed. -/
def noApiErr : Nat → Option String := fun _ => none

/- ===================================================================
   Theorems
   =================================================================== -/

/-- Claim C1 (code_bug): the claim says each concurrent Publish resolves
to the confirm outcome of its own publish, matched by its own delivery
tag, even when confirms arrive in reverse of publish order.  The code
violates this: publisherConfirm receives no delivery tag and consumes the
head of the shared NotifyConfirm channels.  With two publishes of tags 1
and 2 and confirms arriving in reverse order (ack channel holding
[2, 1]), the confirm handler run for the first publish resolves tag 2 and
the handler run for the second publish resolves tag 1. -/
theorem publisherConfirm_resolves_other_publishes_tag :
    (publisherConfirm { ack := [2, 1], nack := [] } true noApiErr noApiErr).1
      = ConfirmAction.ackedPublish 2 false ∧
    (publisherConfirm
        (publisherConfirm { ack := [2, 1], nack := [] } true noApiErr noApiErr).2
        true noApiErr noApiErr).1
      = ConfirmAction.ackedPublish 1 false :=
  ⟨rfl, rfl⟩

/-- Claim C2 (code_bug): the claim says a failure while handling a
confirm never terminates the process and is surfaced as a returned,
typed error.  The code instead calls log.Fatal: with an ack pending for
tag 1 and Channel.Ack(1, false) failing, publisherConfirm terminates the
whole process (fatalExit) and no error is returned to any caller. -/
theorem publisherConfirm_ack_error_fatal :
    (publisherConfirm { ack := [1], nack := [] } true
        (fun _ => some "channel closed") noApiErr).1
      = ConfirmAction.fatalExit true 1 "channel closed" :=
  rfl

/-- Claim C3, counterexample: a Publish whose confirm resolves as a nack
still returns success.  With a nack pending for tag 1 and a successful
Channel.Publish, the call returns no error while the deferred handler
resolves the confirm as a nack (and signals Nack with requeue). -/
theorem publish_nack_still_returns_success :
    (QueueConnection.Publish { ack := [], nack := [1] } "ex" "key" "text" "body"
        none true noApiErr noApiErr).1
      = (none, ConfirmAction.nackedPublish 1 false true) :=
  rfl

/-- Claim C3, amended: a Publish whose confirm resolves as an ack returns
only the Channel.Publish error (success when that call succeeded); a
Publish whose confirm resolves as a nack likewise returns only the
Channel.Publish error — the nack is never surfaced as an error — but the
implementation does signal the broker to redeliver the message with
Nack(tag, multiple = false, requeue = true), an unconditional requeue. -/
theorem publish_confirm_outcome (t : Nat) (acks nacks : List Nat)
    (en rk ct bd : String) (publishErr : Option String)
    (ackErr nackErr : Nat → Option String)
    (ha : ackErr t = none) (hn : nackErr t = none) :
    (QueueConnection.Publish { ack := t :: acks, nack := [] } en rk ct bd
        publishErr true ackErr nackErr).1
      = (publishErr, ConfirmAction.ackedPublish t false) ∧
    (QueueConnection.Publish { ack := [], nack := t :: nacks } en rk ct bd
        publishErr true ackErr nackErr).1
      = (publishErr, ConfirmAction.nackedPublish t false true) := by
  constructor <;> simp [QueueConnection.Publish, publisherConfirm, ha, hn]

/-- Witness for publish_confirm_outcome at tag 7 with empty channels and
always-succeeding broker calls. -/
theorem publish_confirm_outcome_witness :
    (QueueConnection.Publish { ack := [7], nack := [] } "e" "r" "c" "b"
        none true noApiErr noApiErr).1
      = (none, ConfirmAction.ackedPublish 7 false) ∧
    (QueueConnection.Publish { ack := [], nack := [7] } "e" "r" "c" "b"
        none true noApiErr noApiErr).1
      = (none, ConfirmAction.nackedPublish 7 false true) :=
  publish_confirm_outcome 7 [] [] "e" "r" "c" "b" none noApiErr noApiErr rfl rfl

/-- Claim C9: Close always issues the channel close first; the trace is
either just the channel close (when it failed) or the channel close
followed by the connection close, so a connection close is never issued
before the channel close; the surfaced error is the channel-close error
when there is one and the connection-close result otherwise; and when the
channel close succeeds the connection close is issued after it. -/
theorem queue_close_channel_first_and_surfaces_errors
    (chanErr connErr : Option String) :
    (QueueConnection.Close chanErr connErr).2.head? = some CloseStep.closeChannel ∧
    ((QueueConnection.Close chanErr connErr).2 = [CloseStep.closeChannel] ∨
      (QueueConnection.Close chanErr connErr).2
        = [CloseStep.closeChannel, CloseStep.closeConnection]) ∧
    (QueueConnection.Close chanErr connErr).1
      = (if chanErr.isSome then chanErr else connErr) ∧
    (QueueConnection.Close none connErr).2
      = [CloseStep.closeChannel, CloseStep.closeConnection] := by
  cases chanErr <;> simp [QueueConnection.Close]

/-- Claim C8: when the single eager dial attempt of the constructor
fails, NewTTLHashSet returns a ConnectionError at once and no client;
the model performs exactly one dial attempt, so no retry happens. -/
theorem new_ttl_hash_set_dial_failure (ns address : String)
    (interval ttl : Nat) :
    NewTTLHashSet false ns address interval ttl
      = Except.error StoreError.connectionError :=
  rfl

/-- When the backing service is reachable again within one polling
interval of the break, the first re-dial of the supervisor, at
brokeAt + interval, succeeds, so recovery takes at most one interval. -/
theorem recoveryTime_le_one_poll (brokeAt upAt interval : Nat)
    (hP : 0 < interval) (hup : upAt ≤ brokeAt + interval) :
    recoveryTime brokeAt upAt interval = brokeAt + interval := by
  unfold recoveryTime
  have h1 : (upAt - brokeAt + interval - 1) / interval < 2 :=
    (Nat.div_lt_iff_lt_mul hP).mpr (by omega)
  have h2 : max 1 ((upAt - brokeAt + interval - 1) / interval) = 1 :=
    max_eq_left (Nat.lt_succ_iff.mp h1)
  rw [h2, Nat.mul_one]

/-- Claim C5: a connection break in the middle of any of the four
operations — Exists, Add, TTL, Ping — makes that in-flight call return a
TransportError (the original transport message, not the reconnecting
class) together with a negative/false result: false for Exists and Add,
a negative duration for TTL, and the empty reply for Ping; each break
leaves the stored keys untouched; and one polling interval later, the
service being reachable again, a call on the same key succeeds and still
sees the key that was present before the outage. -/
theorem dedup_transport_error_then_recovery (ns address key : String)
    (interval ttl t0 upAt : Nat) (store : List (String × Option Nat))
    (hP : 0 < interval) (hup : upAt ≤ t0 + interval)
    (hkey : storedUnexpired store (compositeKey ns key) (t0 + interval) = true) :
    (TTLHashSet.Exists ⟨ns, address, interval, ttl, ConnState.connected, store⟩
        key ⟨t0, upAt, true⟩).1
      = (false, some (StoreError.transportError "EOF")) ∧
    (TTLHashSet.Add ⟨ns, address, interval, ttl, ConnState.connected, store⟩
        key ⟨t0, upAt, true⟩).1
      = (false, some (StoreError.transportError "EOF")) ∧
    (TTLHashSet.TTL ⟨ns, address, interval, ttl, ConnState.connected, store⟩
        key ⟨t0, upAt, true⟩).1
      = (-1, some (StoreError.transportError "EOF")) ∧
    (-1 : Int) < 0 ∧
    (TTLHashSet.Ping ⟨ns, address, interval, ttl, ConnState.connected, store⟩
        ⟨t0, upAt, true⟩).1
      = ( "", some (StoreError.transportError "EOF")) ∧
    ((TTLHashSet.Exists ⟨ns, address, interval, ttl, ConnState.connected, store⟩
        key ⟨t0, upAt, true⟩).2).store = store ∧
    ((TTLHashSet.Add ⟨ns, address, interval, ttl, ConnState.connected, store⟩
        key ⟨t0, upAt, true⟩).2).store = store ∧
    ((TTLHashSet.TTL ⟨ns, address, interval, ttl, ConnState.connected, store⟩
        key ⟨t0, upAt, true⟩).2).store = store ∧
    ((TTLHashSet.Ping ⟨ns, address, interval, ttl, ConnState.connected, store⟩
        ⟨t0, upAt, true⟩).2).store = store ∧
    (TTLHashSet.Exists
        (TTLHashSet.Exists ⟨ns, address, interval, ttl, ConnState.connected, store⟩
          key ⟨t0, upAt, true⟩).2
        key ⟨t0 + interval, upAt, false⟩).1
      = (true, none) ∧
    (TTLHashSet.Exists
        (TTLHashSet.Add ⟨ns, address, interval, ttl, ConnState.connected, store⟩
          key ⟨t0, upAt, true⟩).2
        key ⟨t0 + interval, upAt, false⟩).1
      = (true, none) ∧
    (TTLHashSet.Exists
        (TTLHashSet.TTL ⟨ns, address, interval, ttl, ConnState.connected, store⟩
          key ⟨t0, upAt, true⟩).2
        key ⟨t0 + interval, upAt, false⟩).1
      = (true, none) ∧
    (TTLHashSet.Exists
        (TTLHashSet.Ping ⟨ns, address, interval, ttl, ConnState.connected, store⟩
          ⟨t0, upAt, true⟩).2
        key ⟨t0 + interval, upAt, false⟩).1
      = (true, none) := by
  have hr : recoveryTime t0 upAt interval = t0 + interval :=
    recoveryTime_le_one_poll t0 upAt interval hP hup
  refine ⟨?_, ?_, ?_, by norm_num, ?_, ?_, ?_, ?_, ?_, ?_, ?_, ?_, ?_⟩ <;>
    simp [TTLHashSet.Exists, TTLHashSet.Add, TTLHashSet.TTL, TTLHashSet.Ping,
          hr, hkey]

/-- A freshly inserted entry is found first, so its presence only depends
on its own expiry. -/
theorem storedUnexpired_cons_self (k : String) (exp now : Nat)
    (rest : List (String × Option Nat)) :
    storedUnexpired ((k, some exp) :: rest) k now = decide (now < exp) := by
  simp [storedUnexpired, List.find?]

/-- Finding a freshly inserted entry yields that entry. -/
theorem find?_cons_self (k : String) (v : Option Nat)
    (rest : List (String × Option Nat)) :
    ((k, v) :: rest).find? (fun p => p.1 == k) = some (k, v) := by
  simp [List.find?]

/-- A first Add of an absent key inserts it with the configured TTL. -/
theorem add_fresh_eq (ns address key : String)
    (interval ttl t1 u1 : Nat) (store : List (String × Option Nat))
    (h0 : storedUnexpired store (compositeKey ns key) t1 = false) :
    TTLHashSet.Add ⟨ns, address, interval, ttl, ConnState.connected, store⟩
        key ⟨t1, u1, false⟩
      = ((true, none),
         ⟨ns, address, interval, ttl, ConnState.connected,
          (compositeKey ns key, some (t1 + ttl)) ::
            store.filter (fun p => !(p.1 == compositeKey ns key))⟩) := by
  simp [TTLHashSet.Add, h0]

/-- Claim C6: on a connected client, a first Add of an absent key returns
added = true with no error; Exists immediately after returns true with no
error; and a second Add before the TTL has elapsed returns added = false
with no error. -/
theorem dedup_add_exists_semantics (ns address key : String)
    (interval ttl t1 t2 u1 u2 u3 : Nat) (store : List (String × Option Nat))
    (h0 : storedUnexpired store (compositeKey ns key) t1 = false)
    (httl : 0 < ttl) (h2 : t2 < t1 + ttl) :
    (TTLHashSet.Add ⟨ns, address, interval, ttl, ConnState.connected, store⟩
        key ⟨t1, u1, false⟩).1 = (true, none) ∧
    (TTLHashSet.Exists
        (TTLHashSet.Add ⟨ns, address, interval, ttl, ConnState.connected, store⟩
          key ⟨t1, u1, false⟩).2
        key ⟨t1, u2, false⟩).1 = (true, none) ∧
    (TTLHashSet.Add
        (TTLHashSet.Add ⟨ns, address, interval, ttl, ConnState.connected, store⟩
          key ⟨t1, u1, false⟩).2
        key ⟨t2, u3, false⟩).1 = (false, none) := by
  have hAdd := add_fresh_eq ns address key interval ttl t1 u1 store h0
  rw [hAdd]
  refine ⟨rfl, ?_, ?_⟩
  · simp [TTLHashSet.Exists, storedUnexpired_cons_self]
    omega
  · simp [TTLHashSet.Add, storedUnexpired_cons_self, h2]

/-- Claim C7: on a connected client, TTL of an absent key and TTL of a
key stored without expiry are negative values with no error — absence is
encoded only in the numeric result; and TTL of a key immediately after
Add returns exactly the configured (positive) TTL with no error. -/
theorem dedup_ttl_semantics (ns address k1 k2 key : String)
    (interval ttl t u1 u2 u3 u4 : Nat) (store : List (String × Option Nat))
    (habs : store.find? (fun p => p.1 == compositeKey ns k1) = none)
    (hnoexp : store.find? (fun p => p.1 == compositeKey ns k2)
      = some (compositeKey ns k2, none))
    (hfresh : storedUnexpired store (compositeKey ns key) t = false)
    (httl : 0 < ttl) :
    (TTLHashSet.TTL ⟨ns, address, interval, ttl, ConnState.connected, store⟩
        k1 ⟨t, u1, false⟩).1 = (-2, none) ∧
    (TTLHashSet.TTL ⟨ns, address, interval, ttl, ConnState.connected, store⟩
        k2 ⟨t, u2, false⟩).1 = (-1, none) ∧
    (TTLHashSet.TTL
        (TTLHashSet.Add ⟨ns, address, interval, ttl, ConnState.connected, store⟩
          key ⟨t, u3, false⟩).2
        key ⟨t, u4, false⟩).1 = ((ttl : Int), none) ∧
    (-2 : Int) < 0 ∧ (-1 : Int) < 0 ∧ (0 : Int) < (ttl : Int) := by
  refine ⟨?_, ?_, ?_, by norm_num, by norm_num, by exact_mod_cast httl⟩
  · simp [TTLHashSet.TTL, habs]
  · simp [TTLHashSet.TTL, hnoexp]
  · rw [add_fresh_eq ns address key interval ttl t u3 store hfresh]
    simp [TTLHashSet.TTL, find?_cons_self, httl]

/-- Counting the elements of range n below k. -/
theorem length_filter_range_lt (k n : Nat) :
    ((List.range n).filter (fun i => decide (i < k))).length = min n k := by
  induction n with
  | zero => simp
  | succ n ih =>
      rw [List.range_succ, List.filter_append, List.length_append, ih]
      by_cases h : n < k
      · simp [h]
        omega
      · simp [h]
        omega

/-- Claim C4: while the reconnect supervisor has not yet restored
connectivity, every Add, Exists, TTL and Ping call returns at once with
the distinct reconnecting error class, which differs from every transport
error; and over an outage of duration outage with polling interval
interval, a caller retrying Exists once per interval observes exactly
max 1 (ceil (outage / interval)) failed attempts, a number within one of
outage / interval. -/
theorem dedup_reconnecting_fail_fast_and_count (ns address key : String)
    (interval ttl brokeAt outage : Nat) (store : List (String × Option Nat))
    (hP : 0 < interval) :
    (∀ now, now < recoveryTime brokeAt (brokeAt + outage) interval →
      (TTLHashSet.Exists ⟨ns, address, interval, ttl, ConnState.reconnecting brokeAt, store⟩
          key ⟨now, brokeAt + outage, false⟩).1
        = (false, some StoreError.reconnectingError) ∧
      (TTLHashSet.Add ⟨ns, address, interval, ttl, ConnState.reconnecting brokeAt, store⟩
          key ⟨now, brokeAt + outage, false⟩).1
        = (false, some StoreError.reconnectingError) ∧
      (TTLHashSet.TTL ⟨ns, address, interval, ttl, ConnState.reconnecting brokeAt, store⟩
          key ⟨now, brokeAt + outage, false⟩).1
        = (0, some StoreError.reconnectingError) ∧
      (TTLHashSet.Ping ⟨ns, address, interval, ttl, ConnState.reconnecting brokeAt, store⟩
          ⟨now, brokeAt + outage, false⟩).1
        = ( "", some StoreError.reconnectingError)) ∧
    (∀ msg, StoreError.reconnectingError ≠ StoreError.transportError msg) ∧
    failedAttempts ⟨ns, address, interval, ttl, ConnState.reconnecting brokeAt, store⟩
        key (brokeAt + outage) interval (outage / interval + 2) brokeAt
      = max 1 ((outage + interval - 1) / interval) ∧
    outage / interval ≤ max 1 ((outage + interval - 1) / interval) ∧
    max 1 ((outage + interval - 1) / interval) ≤ outage / interval + 1 := by
  have hsub : brokeAt + outage - brokeAt = outage := by omega
  have hrec : recoveryTime brokeAt (brokeAt + outage) interval
      = brokeAt + interval * max 1 ((outage + interval - 1) / interval) := by
    unfold recoveryTime
    rw [hsub]
  have hk2 : max 1 ((outage + interval - 1) / interval) ≤ outage / interval + 1 := by
    apply max_le
    · exact Nat.succ_le_succ (Nat.zero_le _)
    · calc (outage + interval - 1) / interval
          ≤ (outage + interval) / interval := Nat.div_le_div_right (by omega)
        _ = outage / interval + 1 := Nat.add_div_right outage hP
  have hk1 : outage / interval ≤ max 1 ((outage + interval - 1) / interval) :=
    le_trans (Nat.div_le_div_right (by omega)) (le_max_right _ _)
  refine ⟨?_, ?_, ?_, hk1, hk2⟩
  · intro now hnow
    have hlt : ¬ (recoveryTime brokeAt (brokeAt + outage) interval ≤ now) := by omega
    exact ⟨by simp [TTLHashSet.Exists, hlt], by simp [TTLHashSet.Add, hlt],
           by simp [TTLHashSet.TTL, hlt], by simp [TTLHashSet.Ping, hlt]⟩
  · intro msg hcon
    exact StoreError.noConfusion hcon
  · have hpt : ∀ i ∈ List.range (outage / interval + 2),
        ((TTLHashSet.Exists ⟨ns, address, interval, ttl, ConnState.reconnecting brokeAt, store⟩
            key ⟨brokeAt + i * interval, brokeAt + outage, false⟩).1.2.isSome)
          = decide (i < max 1 ((outage + interval - 1) / interval)) := by
      intro i _
      by_cases hik : max 1 ((outage + interval - 1) / interval) ≤ i
      · have hle : recoveryTime brokeAt (brokeAt + outage) interval
            ≤ brokeAt + i * interval := by
          rw [hrec, Nat.mul_comm]
          exact Nat.add_le_add_left (Nat.mul_le_mul_right interval hik) brokeAt
        simp [TTLHashSet.Exists, hle, Nat.not_lt.mpr hik]
      · have hik2 : i + 1 ≤ max 1 ((outage + interval - 1) / interval) :=
          Nat.succ_le_of_lt (Nat.lt_of_not_le hik)
        have hgt : ¬ (recoveryTime brokeAt (brokeAt + outage) interval
            ≤ brokeAt + i * interval) := by
          rw [hrec]
          intro hcon
          have h1 : interval * max 1 ((outage + interval - 1) / interval) ≤ i * interval :=
            Nat.le_of_add_le_add_left hcon
          have h2 : interval * (i + 1) ≤ i * interval :=
            le_trans (Nat.mul_le_mul_left interval hik2) h1
          rw [Nat.mul_succ, Nat.mul_comm] at h2
          omega
        simp [TTLHashSet.Exists, hgt, Nat.lt_of_not_le hik]
    unfold failedAttempts
    rw [List.filter_congr hpt, length_filter_range_lt]
    exact Nat.min_eq_right (le_trans hk2 (Nat.le_succ _))

/-- When the URL parser accepts every string, the Each loop collects
exactly the attribute values whose parsed host equals the wanted host. -/
theorem collectAttrs_ok (parseURLHost : String → Except String String)
    (host attrName : String) (es : List HtmlElement)
    (hp : ∀ s, ∃ hst, parseURLHost s = Except.ok hst) :
    collectAttrs parseURLHost host attrName es
      = ExtractOutcome.ok (es.filterMap (fun e =>
          match HtmlElement.Attr e attrName with
          | none => none
          | some v =>
              match parseURLHost v with
              | Except.error _ => none
              | Except.ok hh => if hh == host then some v else none)) := by
  induction es with
  | nil => rfl
  | cons e es ih =>
      cases hAttr : HtmlElement.Attr e attrName with
      | none =>
          obtain ⟨h0, hph⟩ := hp ""
          simp [collectAttrs, hAttr, hph, ih, List.filterMap_cons]
      | some v =>
          obtain ⟨h1, hph⟩ := hp v
          by_cases hh : h1 = host
          · simp [collectAttrs, hAttr, hph, ih, List.filterMap_cons, hh]
          · simp [collectAttrs, hAttr, hph, ih, List.filterMap_cons, hh]

/-- findByElementAttribute under a total parser gives the per-group
selection of the claim. -/
theorem findByElementAttribute_ok (parseURLHost : String → Except String String)
    (document : List HtmlElement) (host element attrName : String)
    (hp : ∀ s, ∃ hst, parseURLHost s = Except.ok hst) :
    findByElementAttribute parseURLHost document host element attrName
      = ExtractOutcome.ok (matchingAttrValues parseURLHost document host element attrName) := by
  unfold findByElementAttribute matchingAttrValues
  exact collectAttrs_ok parseURLHost host attrName _ hp

/-- Claim C10, counterexample: on a document whose single a element
carries href "%zz", a value url.Parse rejects (an invalid percent
escape), ExtractURLs does not return the claimed list of matching
attribute values (here the empty list, as no host matches "x"): it hits
log.Fatal, terminating the process. -/
theorem extract_urls_fatal_on_unparseable_href :
    ExtractURLs badParse
        (Except.ok [{ tag := "a", attrs := [( "href", "%zz" )] }]) "x"
      = (ExtractOutcome.fatal "%zz", none) ∧
    (ExtractOutcome.fatal "%zz" : ExtractOutcome) ≠ ExtractOutcome.ok [] := by
  exact ⟨by decide, by decide⟩

/-- Claim C10, amended: provided url.Parse accepts every attribute value
it is given (including the empty string used when an attribute is
absent), ExtractURLs on a parsed document returns exactly the attribute
values of a[href], img[src], link[href] and script[src] elements, grouped
in that element order, whose parsed URL host equals the given host, with
no error; and when the document cannot be parsed it returns the empty
list together with the document parse error.  When some attribute value
fails URL parsing the process is instead terminated via log.Fatal (see
the counterexample). -/
theorem extract_urls_characterization (parseURLHost : String → Except String String)
    (docErr host : String) (document : List HtmlElement)
    (hp : ∀ s, ∃ hst, parseURLHost s = Except.ok hst) :
    ExtractURLs parseURLHost (Except.error docErr) host
      = (ExtractOutcome.ok [], some docErr) ∧
    ExtractURLs parseURLHost (Except.ok document) host
      = (ExtractOutcome.ok (extractURLsSpec parseURLHost document host), none) := by
  refine ⟨rfl, ?_⟩
  have ha := findByElementAttribute_ok parseURLHost document host "a" "href" hp
  have hi := findByElementAttribute_ok parseURLHost document host "img" "src" hp
  have hl := findByElementAttribute_ok parseURLHost document host "link" "href" hp
  have hs := findByElementAttribute_ok parseURLHost document host "script" "src" hp
  simp [ExtractURLs, extractURLsSpec, ha, hi, hl, hs]

/-- Witness for dedup_reconnecting_fail_fast_and_count: a 5-tick outage
from time 0 polled every 2 ticks gives 3 failed attempts, within one of
5 / 2. -/
theorem dedup_reconnecting_fail_fast_and_count_witness :
    (TTLHashSet.Exists ⟨ "p", "addr", 2, 10, ConnState.reconnecting 0, []⟩ "k"
        ⟨ 1, 0 + 5, false⟩).1 = (false, some StoreError.reconnectingError) ∧
    failedAttempts ⟨ "p", "addr", 2, 10, ConnState.reconnecting 0, []⟩ "k"
        (0 + 5) 2 (5 / 2 + 2) 0 = max 1 ((5 + 2 - 1) / 2) := by
  have h := dedup_reconnecting_fail_fast_and_count "p" "addr" "k" 2 10 0 5 [] (by decide)
  exact ⟨(h.1 1 (by decide)).1, h.2.2.1⟩

/-- Witness for dedup_transport_error_then_recovery: key stored without
expiry, break at time 10 during each of the four operations, service
reachable, polling interval 2. -/
theorem dedup_transport_error_then_recovery_witness :
    (TTLHashSet.Exists ⟨ "p", "a", 2, 100, ConnState.connected,
        [(compositeKey "p" "k", none)]⟩ "k" ⟨ 10, 5, true⟩).1
      = (false, some (StoreError.transportError "EOF")) ∧
    (TTLHashSet.Add ⟨ "p", "a", 2, 100, ConnState.connected,
        [(compositeKey "p" "k", none)]⟩ "k" ⟨ 10, 5, true⟩).1
      = (false, some (StoreError.transportError "EOF")) ∧
    (TTLHashSet.TTL ⟨ "p", "a", 2, 100, ConnState.connected,
        [(compositeKey "p" "k", none)]⟩ "k" ⟨ 10, 5, true⟩).1
      = (-1, some (StoreError.transportError "EOF")) ∧
    (-1 : Int) < 0 ∧
    (TTLHashSet.Ping ⟨ "p", "a", 2, 100, ConnState.connected,
        [(compositeKey "p" "k", none)]⟩ ⟨ 10, 5, true⟩).1
      = ( "", some (StoreError.transportError "EOF")) ∧
    ((TTLHashSet.Exists ⟨ "p", "a", 2, 100, ConnState.connected,
        [(compositeKey "p" "k", none)]⟩ "k" ⟨ 10, 5, true⟩).2).store
      = [(compositeKey "p" "k", none)] ∧
    ((TTLHashSet.Add ⟨ "p", "a", 2, 100, ConnState.connected,
        [(compositeKey "p" "k", none)]⟩ "k" ⟨ 10, 5, true⟩).2).store
      = [(compositeKey "p" "k", none)] ∧
    ((TTLHashSet.TTL ⟨ "p", "a", 2, 100, ConnState.connected,
        [(compositeKey "p" "k", none)]⟩ "k" ⟨ 10, 5, true⟩).2).store
      = [(compositeKey "p" "k", none)] ∧
    ((TTLHashSet.Ping ⟨ "p", "a", 2, 100, ConnState.connected,
        [(compositeKey "p" "k", none)]⟩ ⟨ 10, 5, true⟩).2).store
      = [(compositeKey "p" "k", none)] ∧
    (TTLHashSet.Exists
        (TTLHashSet.Exists ⟨ "p", "a", 2, 100, ConnState.connected,
          [(compositeKey "p" "k", none)]⟩ "k" ⟨ 10, 5, true⟩).2
        "k" ⟨ 10 + 2, 5, false⟩).1
      = (true, none) ∧
    (TTLHashSet.Exists
        (TTLHashSet.Add ⟨ "p", "a", 2, 100, ConnState.connected,
          [(compositeKey "p" "k", none)]⟩ "k" ⟨ 10, 5, true⟩).2
        "k" ⟨ 10 + 2, 5, false⟩).1
      = (true, none) ∧
    (TTLHashSet.Exists
        (TTLHashSet.TTL ⟨ "p", "a", 2, 100, ConnState.connected,
          [(compositeKey "p" "k", none)]⟩ "k" ⟨ 10, 5, true⟩).2
        "k" ⟨ 10 + 2, 5, false⟩).1
      = (true, none) ∧
    (TTLHashSet.Exists
        (TTLHashSet.Ping ⟨ "p", "a", 2, 100, ConnState.connected,
          [(compositeKey "p" "k", none)]⟩ ⟨ 10, 5, true⟩).2
        "k" ⟨ 10 + 2, 5, false⟩).1
      = (true, none) :=
  dedup_transport_error_then_recovery "p" "a" "k" 2 100 10 5
    [(compositeKey "p" "k", none)] (by decide) (by decide)
    (by simp [storedUnexpired, find?_cons_self])

/-- Witness for dedup_add_exists_semantics: fresh key added at time 10
with TTL 100, re-added at time 50. -/
theorem dedup_add_exists_semantics_witness :
    (TTLHashSet.Add ⟨ "p", "a", 2, 100, ConnState.connected, []⟩ "k"
        ⟨ 10, 0, false⟩).1 = (true, none) ∧
    (TTLHashSet.Exists
        (TTLHashSet.Add ⟨ "p", "a", 2, 100, ConnState.connected, []⟩ "k"
          ⟨ 10, 0, false⟩).2 "k" ⟨ 10, 0, false⟩).1 = (true, none) ∧
    (TTLHashSet.Add
        (TTLHashSet.Add ⟨ "p", "a", 2, 100, ConnState.connected, []⟩ "k"
          ⟨ 10, 0, false⟩).2 "k" ⟨ 50, 0, false⟩).1 = (false, none) :=
  dedup_add_exists_semantics "p" "a" "k" 2 100 10 50 0 0 0 [] rfl
    (by decide) (by decide)

/-- Witness for dedup_ttl_semantics: an absent key, a key stored without
expiry, and a key freshly added at time 10 with TTL 100. -/
theorem dedup_ttl_semantics_witness :
    (TTLHashSet.TTL ⟨ "p", "a", 2, 100, ConnState.connected,
        [(compositeKey "p" "k2", none)]⟩ "k1" ⟨ 10, 0, false⟩).1 = (-2, none) ∧
    (TTLHashSet.TTL ⟨ "p", "a", 2, 100, ConnState.connected,
        [(compositeKey "p" "k2", none)]⟩ "k2" ⟨ 10, 0, false⟩).1 = (-1, none) ∧
    (TTLHashSet.TTL
        (TTLHashSet.Add ⟨ "p", "a", 2, 100, ConnState.connected,
          [(compositeKey "p" "k2", none)]⟩ "k" ⟨ 10, 0, false⟩).2
        "k" ⟨ 10, 0, false⟩).1 = ((100 : Int), none) ∧
    (-2 : Int) < 0 ∧ (-1 : Int) < 0 ∧ (0 : Int) < ((100 : Nat) : Int) :=
  dedup_ttl_semantics "p" "a" "k1" "k2" "k" 2 100 10 0 0 0 0
    [(compositeKey "p" "k2", none)]
    (by simp [compositeKey]) (by simp [compositeKey])
    (by simp [storedUnexpired, compositeKey]) (by decide)

/-- Witness for extract_urls_characterization under the total parser, on
a two-element document and the empty host. -/
theorem extract_urls_characterization_witness :
    ExtractURLs totalParse (Except.error "bad html") ""
      = (ExtractOutcome.ok [], some "bad html") ∧
    ExtractURLs totalParse
        (Except.ok [{ tag := "a", attrs := [( "href", "u1" )] },
                    { tag := "img", attrs := [( "src", "u2" )] }]) ""
      = (ExtractOutcome.ok (extractURLsSpec totalParse
          [{ tag := "a", attrs := [( "href", "u1" )] },
           { tag := "img", attrs := [( "src", "u2" )] }] ""), none) :=
  extract_urls_characterization totalParse "bad html" ""
    [{ tag := "a", attrs := [( "href", "u1" )] },
     { tag := "img", attrs := [( "src", "u2" )] }]
    (fun s => ⟨ "", rfl⟩)
